import Mathlib

/-!
Shallow embedding of the extraction-and-resilience pipeline of the
energy-market ETL client (`etl_client`): the OAuth2 token lifecycle manager
(`auth/token_manager.py`), the retrying extractor (`extractors/base.py`),
the health-metric aggregator (`health/checker.py`) and the orchestration
cycle (`main.py`).  Times and delays are modelled as rationals, machine
floats carrying wall-clock instants being out of numeric range concerns for
the properties below.  External collaborators (HTTP transport, transformer,
loader) enter as explicit function parameters.
-/

set_option autoImplicit false
set_option maxRecDepth 8000

/-- Configuration fields of `config.py:Settings` used by the core pipeline. -/
structure Settings where
  token_refresh_margin_seconds : ℚ
  etl_max_retries : Nat
  etl_retry_delay_seconds : ℚ
  etl_poll_interval_seconds : Nat
deriving DecidableEq

/-- Default values from `config.py` (margin 300, max retries 3, base delay 5, poll 300). -/
def defaultSettings : Settings := ⟨300, 3, 5, 300⟩

/-- Python `x or default` on an optional integer argument: `None` and `0` are
falsy, so both fall back to the default (`base.py` line 160). -/
def pyOrNat (x : Option Nat) (d : Nat) : Nat :=
  match x with
  | none => d
  | some v => if v = 0 then d else v

/-- Python `x or default` on an optional float argument: `None` and `0.0` are
falsy, so both fall back to the default (`base.py` line 161). -/
def pyOrRat (x : Option ℚ) (d : ℚ) : ℚ :=
  match x with
  | none => d
  | some v => if v = 0 then d else v

/-- OAuth2 access token record (`token_manager.py:Token`). -/
structure Token where
  access_token : String
  token_type : String
  expires_in : ℚ
  acquired_at : ℚ
deriving DecidableEq

/-- Token expiration timestamp: `acquired_at + expires_in`. -/
def Token.expires_at (t : Token) : ℚ := t.acquired_at + t.expires_in

/-- Expiry check of `Token.is_expired`: `time.time() >= expires_at - margin_seconds`,
with the current clock reading passed explicitly. -/
def Token.is_expired (t : Token) (margin_seconds : ℚ) (now : ℚ) : Bool :=
  decide (now ≥ t.expires_at - margin_seconds)

/-- JSON body returned by the token endpoint (`POST /oauth/token`). -/
structure TokenResponse where
  access_token : String
  token_type : String
  expires_in : ℚ
deriving DecidableEq

/-- Acquisition of a fresh token (`TokenManager._acquire_token`): the network
environment `net` gives the response body at each instant, and `acquired_at`
is the clock reading at acquisition time. -/
def acquireToken (net : ℚ → TokenResponse) (now : ℚ) : Token :=
  ⟨(net now).access_token, (net now).token_type, (net now).expires_in, now⟩

/-- Result of one `get_token` call: the returned access value, the cache state
afterwards, and how many network acquisitions the call performed. -/
structure GetTokenResult where
  value : String
  state : Option Token
  acquisitions : Nat
deriving DecidableEq

/-- State-passing embedding of `TokenManager.get_token`: acquire a fresh token
when the cache is empty or the cached token is expired within the margin,
otherwise return the cached value with no network traffic. -/
def TokenManager.get_token (net : ℚ → TokenResponse) (margin : ℚ)
    (st : Option Token) (now : ℚ) : GetTokenResult :=
  match st with
  | none => ⟨(acquireToken net now).access_token, some (acquireToken net now), 1⟩
  | some t =>
    if t.is_expired margin now then
      ⟨(acquireToken net now).access_token, some (acquireToken net now), 1⟩
    else
      ⟨t.access_token, some t, 0⟩

/-- Embedding of `TokenManager.invalidate_token`: drop the cached token; the
definition takes no network parameter, mirroring that no request is made. -/
def TokenManager.invalidate_token (_st : Option Token) : Option Token := none

/-- JSON-shaped payload returned by a data endpoint: an object or an array.
Leaf values are abstracted to strings; the pipeline never inspects them. -/
inductive Payload
  | obj (entries : List (String × String))
  | arr (items : List String)
deriving DecidableEq

/-- Python truthiness of a payload (`if data:` in `main.py`): empty objects
and empty arrays are falsy. -/
def Payload.isTruthy : Payload → Bool
  | .obj [] => false
  | .arr [] => false
  | _ => true

/-- Health-metric record built by the extractor (`base.py:extract`):
endpoint, optional status code, optional latency, success flag, optional
error description. -/
structure HealthMetrics where
  endpoint : String
  status_code : Option Nat
  response_time_ms : Option Nat
  success : Bool
  error_message : Option String
deriving DecidableEq

/-- HTTP success predicate used by `response.raise_for_status()`: 2xx. -/
def is2xx (code : Nat) : Bool := decide (200 ≤ code ∧ code < 300)

/-- Outcome of the single HTTP request inside `extract`: either a response
with a status code and body, or a transport-level failure (httpx
`RequestError`, no response at all). -/
inductive HttpResult
  | response (code : Nat) (body : Payload)
  | transportFailure
deriving DecidableEq

/-- Exception escaping `extract`: `httpx.HTTPStatusError` with its status
code, or `httpx.RequestError`. -/
inductive ExtractError
  | httpStatus (code : Nat)
  | request
deriving DecidableEq

/-- Result of one `extract` call: the returned pair or the raised error,
together with the number of `invalidate_token` calls made on the shared
token manager during the call. -/
structure ExtractOutcome where
  result : Except ExtractError (Payload × HealthMetrics)
  invalidateCalls : Nat

/-- Embedding of `BaseExtractor.extract`: on a 2xx response return the body
with a success metric; on an error status raise `HTTPStatusError`, calling
`invalidate_token` first exactly when the status is 401; on a transport
failure raise `RequestError` with no invalidation. -/
def BaseExtractor.extract (endpoint : String) (elapsedMs : Nat) :
    HttpResult → ExtractOutcome
  | .response code body =>
    if is2xx code then
      ⟨.ok (body, ⟨endpoint, some code, some elapsedMs, true, none⟩), 0⟩
    else
      ⟨.error (.httpStatus code), if code = 401 then 1 else 0⟩
  | .transportFailure => ⟨.error .request, 0⟩

/-- Outcome of attempt number `i` inside `extract_with_retry`: the `extract`
call either returns a payload with its success metric, or raises with an
optional status code (absent for a transport failure) and a message. -/
inductive AttemptOutcome
  | success (payload : Payload) (metrics : HealthMetrics)
  | failure (status_code : Option Nat) (msg : String)
deriving DecidableEq

/-- Metric rebuilt in the `except` branch of `extract_with_retry` for a
failed attempt: the status code read off the exception (absent for a
transport failure), no latency, success false, the message of the error. -/
def failureMetrics (endpoint : String) (status_code : Option Nat) (msg : String) :
    HealthMetrics :=
  ⟨endpoint, status_code, none, false, some msg⟩

/-- Observable outcome of one `extract_with_retry` call: payload (absent on
total failure), the metric returned to the caller, the sequence of backoff
sleeps performed, and the number of extraction attempts made. -/
structure RetryResult where
  payload : Option Payload
  metrics : Option HealthMetrics
  sleeps : List ℚ
  attemptsMade : Nat
deriving DecidableEq

/-- Retry loop of `extract_with_retry`, from attempt index `i` with `r`
loop iterations remaining: a successful attempt returns immediately; a
failed attempt records its failure metric and, when iterations remain,
sleeps `retry_delay * 2 ^ i` and continues. -/
def retryFrom (attempts : Nat → AttemptOutcome) (retry_delay : ℚ) (endpoint : String) :
    Nat → Nat → RetryResult
  | _, 0 => ⟨none, none, [], 0⟩
  | i, 1 =>
    match attempts i with
    | .success payload metrics => ⟨some payload, some metrics, [], 1⟩
    | .failure code msg => ⟨none, some (failureMetrics endpoint code msg), [], 1⟩
  | i, r + 2 =>
    match attempts i with
    | .success payload metrics => ⟨some payload, some metrics, [], 1⟩
    | .failure _ _ =>
      let rest := retryFrom attempts retry_delay endpoint (i + 1) (r + 1)
      ⟨rest.payload, rest.metrics, retry_delay * 2 ^ i :: rest.sleeps,
        rest.attemptsMade + 1⟩

/-- Embedding of `BaseExtractor.extract_with_retry`: Python-`or` defaulting
of both optional arguments against the settings, then the loop
`for attempt in range(max_retries + 1)`. -/
def BaseExtractor.extract_with_retry (s : Settings) (endpoint : String)
    (attempts : Nat → AttemptOutcome)
    (max_retries : Option Nat) (retry_delay : Option ℚ) : RetryResult :=
  retryFrom attempts (pyOrRat retry_delay s.etl_retry_delay_seconds) endpoint 0
    (pyOrNat max_retries s.etl_max_retries + 1)

/-- Embedding of `HealthChecker.record_metric`: append to the buffer. -/
def HealthChecker.record_metric (buffer : List HealthMetrics) (m : HealthMetrics) :
    List HealthMetrics :=
  buffer ++ [m]

/-- Embedding of `HealthChecker.flush_metrics`: an empty buffer returns 0
immediately; otherwise each buffered metric is handed to the loader
collaborator `loadHealth` (which reports how many rows it durably inserted,
catching per-row failures itself), the reported counts are summed, and the
buffer is cleared. -/
def HealthChecker.flush_metrics (loadHealth : HealthMetrics → Nat)
    (buffer : List HealthMetrics) : Nat × List HealthMetrics :=
  if buffer.isEmpty then (0, buffer)
  else ((buffer.map loadHealth).sum, [])

/-- Banker's rounding (Python `round`) of a rational to an integer. -/
def roundHalfEven (q : ℚ) : ℤ :=
  if q - ⌊q⌋ < 1 / 2 then ⌊q⌋
  else if 1 / 2 < q - ⌊q⌋ then ⌊q⌋ + 1
  else if ⌊q⌋ % 2 = 0 then ⌊q⌋ else ⌊q⌋ + 1

/-- Python `round(q, 2)`: rounding to two decimal places. -/
def round2 (q : ℚ) : ℚ := (roundHalfEven (q * 100) : ℚ) / 100

/-- Summary dict built by `HealthChecker.get_summary`. -/
structure HealthSummary where
  total : Nat
  success : Nat
  failed : Nat
  success_rate : ℚ
deriving DecidableEq

/-- Embedding of `HealthChecker.get_summary`: zeros on an empty buffer,
otherwise counts and the rounded success percentage; the buffer is returned
unchanged. -/
def HealthChecker.get_summary (buffer : List HealthMetrics) :
    HealthSummary × List HealthMetrics :=
  if buffer.isEmpty then (⟨0, 0, 0, 0⟩, buffer)
  else
    let total := buffer.length
    let succCount := (buffer.filter (fun m => m.success)).length
    (⟨total, succCount, total - succCount,
      if 0 < total then round2 (100 * succCount / total) else 0⟩, buffer)

/-- Per-source result entry of the cycle summary dict in
`ETLPipeline.run_etl_cycle`. -/
structure SourceResult where
  extracted : Bool
  loaded : Nat
deriving DecidableEq

/-- Environment of one source inside a cycle: what its `extract_with_retry`
call returns (payload option and health metric; it never raises), and the
composed external transform-then-load step, which either returns a loaded
row count or raises. -/
structure SourceEnv where
  extractData : Option Payload
  extractHealth : HealthMetrics
  transformLoad : Payload → Except String Nat

/-- Cycle summary over the three sources. -/
structure CycleResults where
  prices : SourceResult
  plant : SourceResult
  signals : SourceResult
deriving DecidableEq

/-- One `try` block of `run_etl_cycle`: record the extraction metric, then,
only if a truthy payload came back, transform and load it; an error raised
by transform or load is caught, leaving that source's result entry at its
initial `(extracted := false, loaded := 0)` value. -/
def ETLPipeline.processSource (env : SourceEnv) (buffer : List HealthMetrics) :
    SourceResult × List HealthMetrics :=
  let buffered := HealthChecker.record_metric buffer env.extractHealth
  match env.extractData with
  | none => (⟨false, 0⟩, buffered)
  | some payload =>
    if payload.isTruthy then
      match env.transformLoad payload with
      | .ok n => (⟨true, n⟩, buffered)
      | .error _ => (⟨false, 0⟩, buffered)
    else (⟨false, 0⟩, buffered)

/-- Embedding of `ETLPipeline.run_etl_cycle`: the three per-source blocks in
order (prices, plant, signals) threading the health buffer, then the flush;
returns the summary, the flushed count and the buffer after the flush. -/
def ETLPipeline.run_etl_cycle (loadHealth : HealthMetrics → Nat)
    (buffer0 : List HealthMetrics) (prices plant signals : SourceEnv) :
    CycleResults × Nat × List HealthMetrics :=
  let p1 := ETLPipeline.processSource prices buffer0
  let p2 := ETLPipeline.processSource plant p1.2
  let p3 := ETLPipeline.processSource signals p2.2
  let fl := HealthChecker.flush_metrics loadHealth p3.2
  (⟨p1.1, p2.1, p3.1⟩, fl.1, fl.2)

/-- C4: is_expired is true exactly when the clock is at or past
acquired_at + expires_in - margin, and the boundary instant itself counts
as expired. -/
theorem Token.is_expired_iff_margin (t : Token) (margin now : ℚ) :
    (t.is_expired margin now = true ↔ now ≥ t.acquired_at + t.expires_in - margin)
    ∧ t.is_expired margin (t.acquired_at + t.expires_in - margin) = true := by
  constructor
  · simp [Token.is_expired, Token.expires_at]
  · simp [Token.is_expired, Token.expires_at]

/-- C5: get_token performs a network acquisition exactly when the cache is
empty or the cached token is within the margin of expiry; starting from an
empty cache, a second call inside the margin window of the freshly acquired
token adds no acquisition and returns the same access value. -/
theorem TokenManager.get_token_single_acquisition
    (net : ℚ → TokenResponse) (margin now1 now2 : ℚ)
    (h : now2 < now1 + (net now1).expires_in - margin) :
    (∀ (st : Option Token) (now : ℚ),
      (TokenManager.get_token net margin st now).acquisitions = 1 ↔
        st = none ∨ ∃ t, st = some t ∧ now ≥ t.expires_at - margin)
    ∧ (TokenManager.get_token net margin none now1).acquisitions
        + (TokenManager.get_token net margin
            (TokenManager.get_token net margin none now1).state now2).acquisitions = 1
    ∧ (TokenManager.get_token net margin
          (TokenManager.get_token net margin none now1).state now2).value
        = (TokenManager.get_token net margin none now1).value := by
  have hne : (acquireToken net now1).is_expired margin now2 = false := by
    have hlt : ¬ (now2 ≥ (acquireToken net now1).expires_at - margin) := by
      simp only [acquireToken, Token.expires_at, ge_iff_le, not_le]
      linarith
    simpa [Token.is_expired] using hlt
  refine ⟨?_, ?_, ?_⟩
  · intro st now
    cases st with
    | none => simp [TokenManager.get_token]
    | some t =>
      by_cases hexp : now ≥ t.expires_at - margin
      · simp [TokenManager.get_token, Token.is_expired, hexp]
        linarith
      · simp [TokenManager.get_token, Token.is_expired, hexp]
        push_neg at hexp
        linarith
  · simp [TokenManager.get_token, hne]
  · simp [TokenManager.get_token, hne]

/-- Witness for C5 at a concrete network environment, margin 300, calls at
instants 0 and 100 against a 3600-second token lifetime. -/
theorem TokenManager.get_token_single_acquisition_witness :
    ((100 : ℚ) < 0 + (3600 : ℚ) - 300)
    ∧ (TokenManager.get_token (fun _ => ⟨"tok", "bearer", 3600⟩) 300 none 0).acquisitions
        + (TokenManager.get_token (fun _ => ⟨"tok", "bearer", 3600⟩) 300
            (TokenManager.get_token (fun _ => ⟨"tok", "bearer", 3600⟩) 300 none 0).state
            100).acquisitions = 1 :=
  ⟨by norm_num,
    (TokenManager.get_token_single_acquisition (fun _ => ⟨"tok", "bearer", 3600⟩)
      300 0 100 (by norm_num)).2.1⟩

/-- C6: invalidate_token always empties the cache without network traffic,
is idempotent (a no-op on an already empty cache), and the get_token call
right after it performs exactly one fresh acquisition whatever the prior
state was. -/
theorem TokenManager.invalidate_token_spec
    (st : Option Token) (net : ℚ → TokenResponse) (margin now : ℚ) :
    TokenManager.invalidate_token st = none
    ∧ TokenManager.invalidate_token (TokenManager.invalidate_token st)
        = TokenManager.invalidate_token st
    ∧ TokenManager.invalidate_token none = none
    ∧ (TokenManager.get_token net margin (TokenManager.invalidate_token st) now).acquisitions
        = 1 :=
  ⟨rfl, rfl, rfl, rfl⟩


/-- Unfolding of the retry loop with no iterations remaining. -/
theorem retryFrom_zero_iter (a : Nat → AttemptOutcome) (d : ℚ) (e : String) (i : Nat) :
    retryFrom a d e i 0 = ⟨none, none, [], 0⟩ := rfl

/-- A successful final-iteration attempt returns the success pair. -/
theorem retryFrom_one_success (a : Nat → AttemptOutcome) (d : ℚ) (e : String)
    (i : Nat) (p : Payload) (m : HealthMetrics) (hA : a i = AttemptOutcome.success p m) :
    retryFrom a d e i 1 = ⟨some p, some m, [], 1⟩ := by
  simp only [retryFrom, hA]

/-- The final iteration failing ends the loop with the failure metric and no
sleep. -/
theorem retryFrom_one_failure (a : Nat → AttemptOutcome) (d : ℚ) (e : String)
    (i : Nat) (c : Option Nat) (s : String) (hA : a i = AttemptOutcome.failure c s) :
    retryFrom a d e i 1 = ⟨none, some (failureMetrics e c s), [], 1⟩ := by
  simp only [retryFrom, hA]

/-- A successful non-final attempt returns the success pair at once. -/
theorem retryFrom_step_success (a : Nat → AttemptOutcome) (d : ℚ) (e : String)
    (i r : Nat) (p : Payload) (m : HealthMetrics) (hA : a i = AttemptOutcome.success p m) :
    retryFrom a d e i (r + 2) = ⟨some p, some m, [], 1⟩ := by
  simp only [retryFrom, hA]

/-- A non-final iteration failing sleeps its backoff delay and continues. -/
theorem retryFrom_step_failure (a : Nat → AttemptOutcome) (d : ℚ) (e : String)
    (i r : Nat) (c : Option Nat) (s : String) (hA : a i = AttemptOutcome.failure c s) :
    retryFrom a d e i (r + 2) =
      ⟨(retryFrom a d e (i + 1) (r + 1)).payload,
        (retryFrom a d e (i + 1) (r + 1)).metrics,
        d * 2 ^ i :: (retryFrom a d e (i + 1) (r + 1)).sleeps,
        (retryFrom a d e (i + 1) (r + 1)).attemptsMade + 1⟩ := by
  simp only [retryFrom, hA]

/-- Every attempt succeeding or not, one iteration remaining means the loop
makes exactly one attempt whatever the outcome is; stated for a successful
attempt with any number of iterations remaining. -/
theorem retryFrom_succ_success (a : Nat → AttemptOutcome) (d : ℚ) (e : String)
    (i r : Nat) (p : Payload) (m : HealthMetrics) (hA : a i = AttemptOutcome.success p m) :
    retryFrom a d e i (r + 1) = ⟨some p, some m, [], 1⟩ := by
  cases r with
  | zero => exact retryFrom_one_success a d e i p m hA
  | succ r2 => exact retryFrom_step_success a d e i r2 p m hA

/-- Exponent bookkeeping for the backoff list: mapping over shifted indices. -/
theorem backoff_comp_succ (d : ℚ) (i : Nat) :
    ((fun j => d * 2 ^ (i + j)) ∘ Nat.succ) = fun j => d * 2 ^ (i + 1 + j) := by
  funext j
  have hj : i + Nat.succ j = i + 1 + j := by omega
  simp [Function.comp, hj]

/-- Closed form of the retry loop when every attempt fails: all iterations
run, each non-final failure sleeps its backoff delay, and the metric kept is
the one of the final attempt. -/
theorem retryFrom_all_fail (code : Nat → Option Nat) (msg : Nat → String)
    (d : ℚ) (e : String) (r : Nat) :
    ∀ i : Nat,
      retryFrom (fun j => AttemptOutcome.failure (code j) (msg j)) d e i (r + 1) =
        ⟨none, some (failureMetrics e (code (i + r)) (msg (i + r))),
          (List.range r).map (fun j => d * 2 ^ (i + j)), r + 1⟩ := by
  induction r with
  | zero =>
    intro i
    rw [retryFrom_one_failure _ d e i (code i) (msg i) rfl]
    simp
  | succ r ih =>
    intro i
    rw [retryFrom_step_failure _ d e i r (code i) (msg i) rfl, ih (i + 1)]
    have harith : i + (r + 1) = i + 1 + r := by omega
    rw [harith, List.range_succ_eq_map]
    simp only [List.map_cons, List.map_map, Nat.add_zero, backoff_comp_succ]

/-- With at least one loop iteration remaining, the retry loop performs at
least one attempt. -/
theorem retryFrom_attemptsMade_pos (a : Nat → AttemptOutcome) (d : ℚ) (e : String)
    (r i : Nat) :
    1 ≤ (retryFrom a d e i (r + 1)).attemptsMade := by
  cases hA : a i with
  | success p m => simp [retryFrom_succ_success a d e i r p m hA]
  | failure c s =>
    cases r with
    | zero => simp [retryFrom_one_failure a d e i c s hA]
    | succ r2 => simp [retryFrom_step_failure a d e i r2 c s hA]

/-- The retry loop performs at most as many attempts as it has iterations. -/
theorem retryFrom_attemptsMade_le (a : Nat → AttemptOutcome) (d : ℚ) (e : String)
    (r : Nat) :
    ∀ i : Nat, (retryFrom a d e i r).attemptsMade ≤ r := by
  induction r with
  | zero => intro i; simp [retryFrom_zero_iter]
  | succ r ih =>
    intro i
    cases hA : a i with
    | success p m => simp [retryFrom_succ_success a d e i r p m hA]
    | failure c s =>
      cases r with
      | zero => simp [retryFrom_one_failure a d e i c s hA]
      | succ r2 =>
        have hrec := ih (i + 1)
        simp only [retryFrom_step_failure a d e i r2 c s hA]
        omega

/-- Sleeps of the retry loop: exactly one backoff delay per non-final
attempt, in attempt order. -/
theorem retryFrom_sleeps (a : Nat → AttemptOutcome) (d : ℚ) (e : String) (r : Nat) :
    ∀ i : Nat,
      (retryFrom a d e i r).sleeps =
        (List.range ((retryFrom a d e i r).attemptsMade - 1)).map
          (fun j => d * 2 ^ (i + j)) := by
  induction r with
  | zero => intro i; simp [retryFrom_zero_iter]
  | succ r ih =>
    intro i
    cases hA : a i with
    | success p m => simp [retryFrom_succ_success a d e i r p m hA]
    | failure c s =>
      cases r with
      | zero => simp [retryFrom_one_failure a d e i c s hA]
      | succ r2 =>
        have hpos := retryFrom_attemptsMade_pos a d e r2 (i + 1)
        obtain ⟨k, hk⟩ : ∃ k, (retryFrom a d e (i + 1) (r2 + 1)).attemptsMade = k + 1 :=
          ⟨(retryFrom a d e (i + 1) (r2 + 1)).attemptsMade - 1, by omega⟩
        rw [retryFrom_step_failure a d e i r2 c s hA, ih (i + 1), hk]
        simp only [Nat.add_sub_cancel]
        rw [List.range_succ_eq_map]
        simp only [List.map_cons, List.map_map, Nat.add_zero, backoff_comp_succ]

/-- C1 (counterexample): as stated, the claim fails at max_attempts = 0.
The Python or-defaulting treats an explicit 0 as absent, so with the default
settings (3 retries) a permanently failing endpoint sees 4 attempts, not
0 + 1 = 1. -/
theorem extract_with_retry_zero_attempts_cex :
    (BaseExtractor.extract_with_retry defaultSettings "/api/v1/energy/prices"
        (fun _ => AttemptOutcome.failure (some 500) "server error")
        (some 0) none).attemptsMade = 4
    ∧ (4 : Nat) ≠ 0 + 1 := by
  constructor
  · decide
  · decide

/-- C1 (amended): for every explicitly passed max_attempts ≥ 1 and an
endpoint whose extraction fails on every attempt, extract_with_retry
performs exactly max_attempts + 1 attempts, returns (absent payload, metric
of the last failed attempt) as a value rather than raising, and sleeps the
backoff delays in between; with max_attempts = 0 the falsy-argument
defaulting substitutes the configured retry count instead. -/
theorem extract_with_retry_all_fail_spec (s : Settings) (endpoint : String)
    (code : Nat → Option Nat) (msg : Nat → String) (m : Nat) (d : Option ℚ)
    (hm : 1 ≤ m) :
    BaseExtractor.extract_with_retry s endpoint
        (fun j => AttemptOutcome.failure (code j) (msg j)) (some m) d =
      ⟨none, some (failureMetrics endpoint (code m) (msg m)),
        (List.range m).map (fun j => pyOrRat d s.etl_retry_delay_seconds * 2 ^ j),
        m + 1⟩ := by
  have hm0 : m ≠ 0 := by omega
  have heff : pyOrNat (some m) s.etl_max_retries = m := by
    simp [pyOrNat, hm0]
  rw [BaseExtractor.extract_with_retry, heff,
    retryFrom_all_fail code msg (pyOrRat d s.etl_retry_delay_seconds) endpoint m 0]
  simp

/-- Witness for C1 (amended) at max_attempts = 2 against a permanently
failing endpoint with the default settings. -/
theorem extract_with_retry_all_fail_spec_witness :
    1 ≤ 2
    ∧ BaseExtractor.extract_with_retry defaultSettings "/api/v1/energy/prices"
        (fun j => AttemptOutcome.failure (some 503) (toString j)) (some 2) none =
      ⟨none, some (failureMetrics "/api/v1/energy/prices" (some 503) (toString 2)),
        (List.range 2).map
          (fun j => pyOrRat none defaultSettings.etl_retry_delay_seconds * 2 ^ j),
        2 + 1⟩ :=
  ⟨by decide,
    extract_with_retry_all_fail_spec defaultSettings "/api/v1/energy/prices"
      (fun _ => some 503) (fun j => toString j) 2 none (by decide)⟩

/-- C7: a non-2xx response makes extract raise an HTTPStatusError carrying
the status code, after exactly one invalidate call on the shared token
manager when the status is 401 and none otherwise; a transport failure
raises with no invalidation. -/
theorem extract_invalidates_on_401 (endpoint : String) (elapsedMs : Nat)
    (code : Nat) (body : Payload) (hcode : is2xx code = false) :
    (BaseExtractor.extract endpoint elapsedMs (.response code body)).invalidateCalls
        = (if code = 401 then 1 else 0)
    ∧ (BaseExtractor.extract endpoint elapsedMs (.response code body)).result
        = .error (.httpStatus code)
    ∧ (BaseExtractor.extract endpoint elapsedMs .transportFailure).invalidateCalls = 0 := by
  refine ⟨?_, ?_, rfl⟩ <;> simp [BaseExtractor.extract, hcode]

/-- Witness for C7 at an actual 401 response: exactly one invalidation. -/
theorem extract_invalidates_on_401_witness :
    is2xx 401 = false
    ∧ (BaseExtractor.extract "/api/v1/energy/prices" 12
        (.response 401 (Payload.arr []))).invalidateCalls = (if 401 = 401 then 1 else 0) :=
  ⟨by decide,
    (extract_invalidates_on_401 "/api/v1/energy/prices" 12 401 (Payload.arr [])
      (by decide)).1⟩

/-- C8: with explicit nonzero arguments, every backoff sleep performed by
extract_with_retry has value base_delay * 2 ^ attempt_index, the sleeps
number one fewer than the attempts made and at most max_attempts; and with
max_attempts 2, base delay 1, failures on the first two attempts and
success on the third, the successful payload comes back after sleeping 1
then 2 seconds. -/
theorem extract_with_retry_backoff (s : Settings) (endpoint : String)
    (attempts : Nat → AttemptOutcome) (m : Nat) (d : ℚ)
    (hm : m ≠ 0) (hd : d ≠ 0) :
    ((BaseExtractor.extract_with_retry s endpoint attempts (some m) (some d)).sleeps
        = (List.range
            ((BaseExtractor.extract_with_retry s endpoint attempts
              (some m) (some d)).attemptsMade - 1)).map (fun j => d * 2 ^ j)
      ∧ (BaseExtractor.extract_with_retry s endpoint attempts
          (some m) (some d)).attemptsMade ≤ m + 1)
    ∧ ∀ (payload : Payload) (sm : HealthMetrics),
        BaseExtractor.extract_with_retry defaultSettings endpoint
            (fun j => if j < 2 then AttemptOutcome.failure (some 500) "server error"
              else AttemptOutcome.success payload sm) (some 2) (some 1) =
          ⟨some payload, some sm, [1, 2], 3⟩ := by
  have heff : pyOrNat (some m) s.etl_max_retries = m := by
    simp [pyOrNat, hm]
  have heffd : pyOrRat (some d) s.etl_retry_delay_seconds = d := by
    simp [pyOrRat, hd]
  constructor
  · rw [BaseExtractor.extract_with_retry, heff, heffd]
    constructor
    · have := retryFrom_sleeps attempts d endpoint (m + 1) 0
      simpa using this
    · exact retryFrom_attemptsMade_le attempts d endpoint (m + 1) 0
  · intro payload sm
    set A := fun j => if j < 2 then AttemptOutcome.failure (some 500) "server error"
      else AttemptOutcome.success payload sm
    have hA0 : A 0 = AttemptOutcome.failure (some 500) "server error" := rfl
    have hA1 : A 1 = AttemptOutcome.failure (some 500) "server error" := rfl
    have hA2 : A 2 = AttemptOutcome.success payload sm := rfl
    have e1 : retryFrom A 1 endpoint 2 1 = ⟨some payload, some sm, [], 1⟩ :=
      retryFrom_one_success A 1 endpoint 2 payload sm hA2
    have e2 : retryFrom A 1 endpoint 1 2 = ⟨some payload, some sm, [2], 2⟩ := by
      rw [retryFrom_step_failure A 1 endpoint 1 0 (some 500) "server error" hA1]
      norm_num [e1]
    have e3 : retryFrom A 1 endpoint 0 3 = ⟨some payload, some sm, [1, 2], 3⟩ := by
      rw [retryFrom_step_failure A 1 endpoint 0 1 (some 500) "server error" hA0]
      norm_num [e2]
    have hp : pyOrRat (some 1) defaultSettings.etl_retry_delay_seconds = 1 := by
      norm_num [pyOrRat, defaultSettings]
    have hq : pyOrNat (some 2) defaultSettings.etl_max_retries = 2 := by
      norm_num [pyOrNat, defaultSettings]
    show retryFrom A (pyOrRat (some 1) defaultSettings.etl_retry_delay_seconds)
        endpoint 0 (pyOrNat (some 2) defaultSettings.etl_max_retries + 1) =
      ⟨some payload, some sm, [1, 2], 3⟩
    rw [hp, hq]
    exact e3

/-- Witness for C8 at a run where every attempt fails: three sleeps of 5,
10 and 20 seconds for the default-equivalent explicit arguments. -/
theorem extract_with_retry_backoff_witness :
    (3 : Nat) ≠ 0 ∧ (5 : ℚ) ≠ 0
    ∧ (BaseExtractor.extract_with_retry defaultSettings "/api/v1/plant/status"
        (fun _ => AttemptOutcome.failure none "timeout") (some 3) (some 5)).sleeps
      = (List.range
          ((BaseExtractor.extract_with_retry defaultSettings "/api/v1/plant/status"
            (fun _ => AttemptOutcome.failure none "timeout")
            (some 3) (some 5)).attemptsMade - 1)).map (fun j => (5 : ℚ) * 2 ^ j) :=
  ⟨by decide, by norm_num,
    (extract_with_retry_backoff defaultSettings "/api/v1/plant/status"
      (fun _ => AttemptOutcome.failure none "timeout") 3 5 (by decide)
      (by norm_num)).1.1⟩

/-- C10: an explicitly passed 0 for either retry argument is discarded by
the Python or-defaulting: the run is identical to passing no argument, the
effective values are the configured 3 retries and 5-second base delay, and
no argument choice makes the effective retry count zero (a single-attempt
extraction) or the effective base delay zero. -/
theorem extract_with_retry_zero_args_defaulted :
    (∀ (endpoint : String) (attempts : Nat → AttemptOutcome),
      BaseExtractor.extract_with_retry defaultSettings endpoint attempts
          (some 0) (some 0)
        = BaseExtractor.extract_with_retry defaultSettings endpoint attempts none none)
    ∧ pyOrNat (some 0) defaultSettings.etl_max_retries = 3
    ∧ pyOrRat (some 0) defaultSettings.etl_retry_delay_seconds = 5
    ∧ (∀ v : Option Nat, pyOrNat v defaultSettings.etl_max_retries ≠ 0)
    ∧ (∀ w : Option ℚ, pyOrRat w defaultSettings.etl_retry_delay_seconds ≠ 0) := by
  refine ⟨fun endpoint attempts => rfl, rfl, rfl, ?_, ?_⟩
  · intro v
    cases v with
    | none => simp [pyOrNat, defaultSettings]
    | some k =>
      by_cases hk : k = 0 <;> simp [pyOrNat, defaultSettings, hk]
  · intro w
    cases w with
    | none => simp [pyOrRat, defaultSettings]
    | some q =>
      by_cases hq : q = 0 <;> simp [pyOrRat, defaultSettings, hq]

/-- Flush always leaves an empty buffer and returns the summed
loader-reported insert counts, whether or not the buffer was empty. -/
theorem flush_metrics_eq (loadHealth : HealthMetrics → Nat)
    (buffer : List HealthMetrics) :
    HealthChecker.flush_metrics loadHealth buffer = ((buffer.map loadHealth).sum, []) := by
  cases buffer with
  | nil => simp [HealthChecker.flush_metrics]
  | cons x xs => simp [HealthChecker.flush_metrics]

/-- C3 (counterexample): with one buffered record whose persistence the
loader reports as failed (0 rows inserted), flush returns 0 although one
record was handed off, so flush does not return the number of records
handed off. -/
theorem flush_metrics_count_cex :
    (HealthChecker.flush_metrics (fun _ => 0)
        [⟨"/api/v1/energy/prices", some 200, some 10, true, none⟩]).1 = 0
    ∧ ([⟨"/api/v1/energy/prices", some 200, some 10, true, none⟩] :
        List HealthMetrics).length = 1
    ∧ (0 : Nat) ≠ 1 := by
  refine ⟨rfl, rfl, by decide⟩

/-- C3 (amended): flush hands each buffered record to the loader, clears
the buffer afterward regardless of individual persistence failures (which
the loader absorbs rather than propagating), and returns the sum of the
loader-reported inserted counts — the durably-stored tally, which may
differ from the number of records handed off. -/
theorem flush_metrics_spec (loadHealth : HealthMetrics → Nat)
    (buffer : List HealthMetrics) :
    (HealthChecker.flush_metrics loadHealth buffer).2 = []
    ∧ (HealthChecker.flush_metrics loadHealth buffer).1
        = (buffer.map loadHealth).sum := by
  rw [flush_metrics_eq]
  exact ⟨rfl, rfl⟩

/-- C9: get_summary leaves the buffer untouched and reports total = buffer
length, success = number of records with the success flag set, failed =
total minus success, and the success rate 100 * success / total rounded to
two decimals (0 for an empty buffer); over four outcomes with three
successes it yields total 4, success 3, failed 1, rate 75. -/
theorem get_summary_spec (buffer : List HealthMetrics) :
    (HealthChecker.get_summary buffer).2 = buffer
    ∧ (HealthChecker.get_summary buffer).1.total = buffer.length
    ∧ (HealthChecker.get_summary buffer).1.success
        = buffer.countP (fun m => m.success)
    ∧ (HealthChecker.get_summary buffer).1.failed
        = buffer.length - buffer.countP (fun m => m.success)
    ∧ (HealthChecker.get_summary buffer).1.success_rate
        = (if buffer.length = 0 then 0
          else round2 (100 * (buffer.countP (fun m => m.success) : ℚ) / buffer.length))
    ∧ HealthChecker.get_summary
        [⟨"/a", some 200, some 5, true, none⟩, ⟨"/b", some 200, some 5, true, none⟩,
          ⟨"/c", some 500, none, false, some "err"⟩, ⟨"/d", some 200, some 5, true, none⟩]
      = (⟨4, 3, 1, 75⟩,
          [⟨"/a", some 200, some 5, true, none⟩, ⟨"/b", some 200, some 5, true, none⟩,
            ⟨"/c", some 500, none, false, some "err"⟩,
            ⟨"/d", some 200, some 5, true, none⟩]) := by
  have hconc : HealthChecker.get_summary
      [⟨"/a", some 200, some 5, true, none⟩, ⟨"/b", some 200, some 5, true, none⟩,
        ⟨"/c", some 500, none, false, some "err"⟩, ⟨"/d", some 200, some 5, true, none⟩]
      = (⟨4, 3, 1, 75⟩,
          [⟨"/a", some 200, some 5, true, none⟩, ⟨"/b", some 200, some 5, true, none⟩,
            ⟨"/c", some 500, none, false, some "err"⟩,
            ⟨"/d", some 200, some 5, true, none⟩]) := by
    norm_num [HealthChecker.get_summary, List.filter, round2, roundHalfEven]
  cases buffer with
  | nil => exact ⟨rfl, rfl, rfl, rfl, rfl, hconc⟩
  | cons x xs =>
    refine ⟨rfl, ?_, ?_, ?_, ?_, hconc⟩ <;>
      simp [HealthChecker.get_summary, List.countP_eq_length_filter]

/-- The health buffer after one per-source block is the incoming buffer
with that source's extraction metric appended, whatever branch ran. -/
theorem processSource_buffer (env : SourceEnv) (b : List HealthMetrics) :
    (ETLPipeline.processSource env b).2 = b ++ [env.extractHealth] := by
  simp only [ETLPipeline.processSource, HealthChecker.record_metric]
  cases env.extractData with
  | none => rfl
  | some payload =>
    by_cases ht : payload.isTruthy
    · cases hTL : env.transformLoad payload <;> simp [ht, hTL]
    · simp [ht]

/-- A source's summary entry depends only on its own environment, not on
the buffer handed in from earlier sources. -/
theorem processSource_result_independent (env : SourceEnv) (b : List HealthMetrics) :
    (ETLPipeline.processSource env b).1 = (ETLPipeline.processSource env []).1 := by
  simp only [ETLPipeline.processSource, HealthChecker.record_metric]
  cases env.extractData with
  | none => rfl
  | some payload =>
    by_cases ht : payload.isTruthy
    · cases hTL : env.transformLoad payload <;> simp [ht, hTL]
    · simp [ht]

/-- A raising transform-or-load step leaves the source's summary entry at
its initial value: not extracted, zero rows loaded. -/
theorem processSource_error_result (env : SourceEnv) (b : List HealthMetrics)
    (p : Payload) (emsg : String) (hdata : env.extractData = some p)
    (htruthy : p.isTruthy = true) (hraise : env.transformLoad p = .error emsg) :
    (ETLPipeline.processSource env b).1 = ⟨false, 0⟩ := by
  simp [ETLPipeline.processSource, HealthChecker.record_metric, hdata, htruthy, hraise]

/-- C2: whichever of the three sources it is whose transform-or-load step
raises on its truthy payload, run_etl_cycle catches the error and still
returns a summary: each source's entry is always exactly its standalone
outcome (so the other two sources' extraction, transform and load run
unaffected), the failing source's entry stays at (not extracted, 0 loaded),
all three extraction metrics reach the flush, and the health buffer ends
the cycle empty — one source's failure never aborts the cycle. -/
theorem run_etl_cycle_isolates_failure (loadHealth : HealthMetrics → Nat)
    (prices plant signals : SourceEnv) (p : Payload) (emsg : String)
    (htruthy : p.isTruthy = true) :
    (ETLPipeline.run_etl_cycle loadHealth [] prices plant signals).1
        = ⟨(ETLPipeline.processSource prices []).1,
            (ETLPipeline.processSource plant []).1,
            (ETLPipeline.processSource signals []).1⟩
    ∧ (prices.extractData = some p → prices.transformLoad p = .error emsg →
        (ETLPipeline.run_etl_cycle loadHealth [] prices plant signals).1
          = ⟨⟨false, 0⟩, (ETLPipeline.processSource plant []).1,
              (ETLPipeline.processSource signals []).1⟩)
    ∧ (plant.extractData = some p → plant.transformLoad p = .error emsg →
        (ETLPipeline.run_etl_cycle loadHealth [] prices plant signals).1
          = ⟨(ETLPipeline.processSource prices []).1, ⟨false, 0⟩,
              (ETLPipeline.processSource signals []).1⟩)
    ∧ (signals.extractData = some p → signals.transformLoad p = .error emsg →
        (ETLPipeline.run_etl_cycle loadHealth [] prices plant signals).1
          = ⟨(ETLPipeline.processSource prices []).1,
              (ETLPipeline.processSource plant []).1, ⟨false, 0⟩⟩)
    ∧ (ETLPipeline.run_etl_cycle loadHealth [] prices plant signals).2.1
        = ([prices.extractHealth, plant.extractHealth, signals.extractHealth].map
            loadHealth).sum
    ∧ (ETLPipeline.run_etl_cycle loadHealth [] prices plant signals).2.2 = [] := by
  have hind : (ETLPipeline.run_etl_cycle loadHealth [] prices plant signals).1
      = ⟨(ETLPipeline.processSource prices []).1,
          (ETLPipeline.processSource plant []).1,
          (ETLPipeline.processSource signals []).1⟩ := by
    simp only [ETLPipeline.run_etl_cycle]
    rw [processSource_result_independent plant
        (ETLPipeline.processSource prices []).2,
      processSource_result_independent signals
        (ETLPipeline.processSource plant
          (ETLPipeline.processSource prices []).2).2]
  refine ⟨hind, ?_, ?_, ?_, ?_, ?_⟩
  · intro hdata hraise
    rw [hind, processSource_error_result prices [] p emsg hdata htruthy hraise]
  · intro hdata hraise
    rw [hind, processSource_error_result plant [] p emsg hdata htruthy hraise]
  · intro hdata hraise
    rw [hind, processSource_error_result signals [] p emsg hdata htruthy hraise]
  · simp only [ETLPipeline.run_etl_cycle, flush_metrics_eq, processSource_buffer]
    simp
  · simp only [ETLPipeline.run_etl_cycle, flush_metrics_eq]

/-- Witness for C2 with concrete environments: the prices transform raises,
plant and signals still report their standalone outcomes. -/
theorem run_etl_cycle_isolates_failure_witness :
    (Payload.arr ["q"]).isTruthy = true
    ∧ (ETLPipeline.run_etl_cycle (fun _ => 1) []
        ⟨some (Payload.arr ["q"]), ⟨"/p", some 200, some 5, true, none⟩,
          fun _ => Except.error "boom"⟩
        ⟨some (Payload.arr ["r"]), ⟨"/q", some 200, some 6, true, none⟩,
          fun _ => Except.ok 7⟩
        ⟨some (Payload.arr ["s"]), ⟨"/s", some 200, some 7, true, none⟩,
          fun _ => Except.ok 9⟩).1
      = ⟨⟨false, 0⟩,
          (ETLPipeline.processSource
            ⟨some (Payload.arr ["r"]), ⟨"/q", some 200, some 6, true, none⟩,
              fun _ => Except.ok 7⟩ []).1,
          (ETLPipeline.processSource
            ⟨some (Payload.arr ["s"]), ⟨"/s", some 200, some 7, true, none⟩,
              fun _ => Except.ok 9⟩ []).1⟩ :=
  ⟨rfl,
    (run_etl_cycle_isolates_failure (fun _ => 1)
      ⟨some (Payload.arr ["q"]), ⟨"/p", some 200, some 5, true, none⟩,
        fun _ => Except.error "boom"⟩
      ⟨some (Payload.arr ["r"]), ⟨"/q", some 200, some 6, true, none⟩,
        fun _ => Except.ok 7⟩
      ⟨some (Payload.arr ["s"]), ⟨"/s", some 200, some 7, true, none⟩,
        fun _ => Except.ok 9⟩
      (Payload.arr ["q"]) "boom" rfl).2.1 rfl rfl⟩
